import Mathlib

/-!
Verification of the table-identifier rewriter
(`table_identifier_replacer.py`, class `TableIdentifierReplacer`).

The program walks a SQL parse tree produced by an external parser
(sqlglot) and, for every table-reference node that carries both a
database and a name component, calls a user-supplied handler on the
three optional identifier texts `(catalog, db, name)` and rebuilds the
node from the handler's answer.  The embedding below translates the
data model and the two methods `_process_table` and `replace` from the
source; the external parser and printer are kept abstract parameters,
as they are external collaborators of the program.
-/

/-- A sqlglot `exp.Identifier`: a raw text value together with its
was-quoted flag (`Identifier.name` / `Identifier.quoted` in sqlglot). -/
structure Identifier where
  name : String
  quoted : Bool
deriving DecidableEq, Repr

/-- A sqlglot `Table` expression, as used by `_process_table`: the three
independently optional identifier slots read from `table.args`
(`"catalog"`, `"db"`, `"this"`), plus the remaining entries of the
`args` dict (alias, hints, sampling clause, ...), kept opaque as
key/value pairs because `_process_table` never touches them. -/
structure Table where
  catalog : Option Identifier
  db : Option Identifier
  this_ : Option Identifier
  otherArgs : List (String × String)
deriving DecidableEq, Repr

/-- The handler's result: `(new_catalog, new_db, new_table_name)`. -/
abbrev Triple := Option String × Option String × Option String

/-- A pure rewrite policy (`handler` argument of the constructor). -/
abbrev Handler := Option String → Option String → Option String → Triple

/-- Python exceptions that play a role in `replace`: sqlglot's
`ParseError`, the `ValueError` raised by the except-clause, and any
other exception a caller-supplied handler may raise. -/
inductive PyExc where
  | parseError (msg : String)
  | valueError (msg : String)
  | other (msg : String)
deriving DecidableEq, Repr

/-- A rewrite policy that may raise (Python functions are partial maps;
an impure handler is modelled in the `Except PyExc` monad). -/
abbrev RHandler := Option String → Option String → Option String → Except PyExc Triple

/-- `TableIdentifierReplacer._process_table`, translated from the
source with the handler invocation in an arbitrary monad `m` (the
handler is caller-owned Python code, so it may raise or have side
effects; instantiating `m` with `Id`, `Except PyExc` or a state monad
recovers the pure, raising and instrumented views of the same code).

Source: extract `catalog`/`db`/`this` from `table.args`; if `db` or
`this` is `None`, return the table unchanged; otherwise call the
handler on the identifier texts (`None` for an absent catalog) and
build `new_args` as a copy of `table.args` in which each component the
handler answered with a string is replaced by a fresh
`exp.Identifier` carrying the new text and the original quoted flag
(`False` for a previously absent catalog). -/
def processTableM (m : Type → Type) [Monad m]
    (handler : Option String → Option String → Option String → m Triple)
    (table : Table) : m Table :=
  let catalog := table.catalog
  let db := table.db
  let name := table.this_
  match db, name with
  | none, _ => pure table
  | _, none => pure table
  | some dbI, some nameI => do
    let origCatalog := Option.map Identifier.name catalog
    let origDb := some dbI.name
    let origName := some nameI.name
    let res ← handler origCatalog origDb origName
    let newCatalog := res.1
    let newDb := res.2.1
    let newName := res.2.2
    let t1 :=
      match newCatalog with
      | some c =>
          { table with
            catalog := some { name := c,
                              quoted := (Option.map Identifier.quoted catalog).getD false } }
      | none => table
    let t2 :=
      match newDb with
      | some d => { t1 with db := some { name := d, quoted := dbI.quoted } }
      | none => t1
    let t3 :=
      match newName with
      | some n => { t2 with this_ := some { name := n, quoted := nameI.quoted } }
      | none => t2
    pure t3

/-- `_process_table` with a pure handler. -/
def processTable (h : Handler) (t : Table) : Table :=
  processTableM Id (fun c d n => pure (h c d n)) t

/-- `_process_table` with a handler that may raise. -/
def processTableE (h : RHandler) (t : Table) : Except PyExc Table :=
  processTableM (Except PyExc) h t

/-- Lift a pure handler into the raising view (a handler that never
raises). -/
def liftHandler (h : Handler) : RHandler :=
  fun c d n => Except.ok (h c d n)

/-- The record of one handler invocation: the three optional strings
the handler received. -/
abbrev CallArgs := Option String × Option String × Option String

/-- Wrap a pure handler so that every invocation is appended to a log,
to observe how often and with which arguments `_process_table` calls
it. -/
def loggingHandler (h : Handler) :
    Option String → Option String → Option String → StateM (List CallArgs) Triple :=
  fun c d n s => (h c d n, s ++ [(c, d, n)])

/-- `_process_table` with the call log threaded through. -/
def processTableS (h : Handler) (t : Table) (s : List CallArgs) :
    Table × List CallArgs :=
  processTableM (StateM (List CallArgs)) (loggingHandler h) t s

mutual

/-- A sqlglot parse tree (`Expression`): either a bare identifier leaf,
a `Table` node, or any other expression node (Select, Join, Column,
CTE, Subquery, ...), kept as a constructor kind with its list of child
expressions.  Column references such as `db1.t2.id` are `node`s whose
children are `ident` leaves — they are not `Table` nodes. -/
inductive Expr where
  | ident : Identifier → Expr
  | table : Table → Expr
  | node : String → Args → Expr

/-- Child list of an expression node. -/
inductive Args where
  | nil : Args
  | cons : Expr → Args → Args

end

mutual

/-- `expression.transform(visit)` composed with the `visit` callback of
`replace`: `visit` returns `self._process_table(node)` on `Table`
nodes and the node itself on every other node, so the traversal is
exactly "apply `f` to every `Table` node of the tree" (a `Table` node
carries no child expression that `visit` could alter). -/
def transformExpr (f : Table → Table) : Expr → Expr
  | Expr.ident i => Expr.ident i
  | Expr.table t => Expr.table (f t)
  | Expr.node k cs => Expr.node k (transformArgs f cs)

/-- `transformExpr` on a child list. -/
def transformArgs (f : Table → Table) : Args → Args
  | Args.nil => Args.nil
  | Args.cons c cs => Args.cons (transformExpr f c) (transformArgs f cs)

end

mutual

/-- The same traversal with a table-processing step that may raise
(the handler runs inside it): the first exception aborts the walk and
propagates. -/
def transformExprE (f : Table → Except PyExc Table) : Expr → Except PyExc Expr
  | Expr.ident i => Except.ok (Expr.ident i)
  | Expr.table t => Except.map Expr.table (f t)
  | Expr.node k cs => Except.map (Expr.node k) (transformArgsE f cs)

/-- `transformExprE` on a child list. -/
def transformArgsE (f : Table → Except PyExc Table) : Args → Except PyExc Args
  | Args.nil => Except.ok Args.nil
  | Args.cons c cs => do
    let c2 ← transformExprE f c
    let cs2 ← transformArgsE f cs
    Except.ok (Args.cons c2 cs2)

end

mutual

/-- `true` iff the tree contains a `Table` node. -/
def hasTable : Expr → Bool
  | Expr.ident _ => false
  | Expr.table _ => true
  | Expr.node _ cs => hasTableArgs cs

/-- `hasTable` on a child list. -/
def hasTableArgs : Args → Bool
  | Args.nil => false
  | Args.cons c cs => hasTable c || hasTableArgs cs

end

/-- `TableIdentifierReplacer.replace`, translated from the source.
The external collaborators stay abstract: `parse` models
`sqlglot.parse_one(sql, dialect=Spark)` (an `Except` value holding the
parse tree, or the `ParseError` diagnostic message for input the
parser rejects), and `render` models
`expression.sql(dialect=Spark, normalize=True, pretty=True)`.

The whole body runs inside `try: ... except sqlglot.errors.ParseError
as e: raise ValueError(f"Failed to parse SQL: ...")`, so the outer
match re-raises a `ParseError` escaping the body — whatever raised it —
as a `ValueError` wrapping its message, and lets every other exception
through unchanged. -/
def replaceE (parse : String → Except String Expr) (render : Expr → String)
    (h : RHandler) (sql : String) : Except PyExc String :=
  let body : Except PyExc String :=
    match parse sql with
    | Except.error msg => Except.error (PyExc.parseError msg)
    | Except.ok expression =>
        Except.map render (transformExprE (processTableE h) expression)
  match body with
  | Except.error (PyExc.parseError msg) =>
      Except.error (PyExc.valueError ("Failed to parse SQL: " ++ msg))
  | r => r

/-- `replace` with a pure (never-raising) handler. -/
def replacePure (parse : String → Except String Expr) (render : Expr → String)
    (h : Handler) (sql : String) : Except PyExc String :=
  replaceE parse render (liftHandler h) sql

/-- The identity policy: all three components reported unchanged. -/
def idHandler : Handler := fun _ _ _ => (none, none, none)

/-- The test-suite policy: rename a present database to `new_<db>`,
leave catalog and name alone. -/
def renameDb : Handler :=
  fun _ d _ => (none, Option.map (fun s => "new_" ++ s) d, none)

/-- A policy introducing a catalog where none may have existed. -/
def addCatalog : Handler := fun _ _ _ => (some "new_catalog", none, none)

/-- A policy answering the empty string for the database component. -/
def emptyDb : Handler := fun _ _ _ => (none, some "", none)

/-- A handler that raises sqlglot's `ParseError` when invoked. -/
def raisingParseErrHandler : RHandler :=
  fun _ _ _ => Except.error (PyExc.parseError "boom")

/-- A handler that raises an unrelated exception when invoked. -/
def raisingOtherHandler : RHandler :=
  fun _ _ _ => Except.error (PyExc.other "handler failed")

/-- The backtick-quoted table reference of ``SELECT * FROM `db`.`table` ``. -/
def quotedDbTable : Table :=
  { catalog := none,
    db := some { name := "db", quoted := true },
    this_ := some { name := "table", quoted := true },
    otherArgs := [] }

/-- The table reference of `SELECT * FROM db.table`. -/
def plainDbTable : Table :=
  { catalog := none,
    db := some { name := "db", quoted := false },
    this_ := some { name := "table", quoted := false },
    otherArgs := [("alias", "t")] }

/-- A bare-name table reference, as produced for a CTE referenced
without qualification (`... SELECT * FROM cte`): no database slot. -/
def cteRefTable : Table :=
  { catalog := none,
    db := none,
    this_ := some { name := "cte", quoted := false },
    otherArgs := [] }

/-- The table reference `db1.t1` of the join example. -/
def joinTbl1 : Table :=
  { catalog := none,
    db := some { name := "db1", quoted := false },
    this_ := some { name := "t1", quoted := false },
    otherArgs := [] }

/-- The table reference `db2.t2` of the join example. -/
def joinTbl2 : Table :=
  { catalog := none,
    db := some { name := "db2", quoted := false },
    this_ := some { name := "t2", quoted := false },
    otherArgs := [] }

/-- The column reference `db1.t1.id`: a Column node over identifier
leaves, not a `Table` node. -/
def colRef1 : Expr :=
  Expr.node "column"
    (Args.cons (Expr.ident { name := "db1", quoted := false })
      (Args.cons (Expr.ident { name := "t1", quoted := false })
        (Args.cons (Expr.ident { name := "id", quoted := false }) Args.nil)))

/-- The column reference `db2.t2.id`. -/
def colRef2 : Expr :=
  Expr.node "column"
    (Args.cons (Expr.ident { name := "db2", quoted := false })
      (Args.cons (Expr.ident { name := "t2", quoted := false })
        (Args.cons (Expr.ident { name := "id", quoted := false }) Args.nil)))

/-- The ON clause `db1.t1.id = db2.t2.id`: contains no `Table` node. -/
def onClause : Expr :=
  Expr.node "eq" (Args.cons colRef1 (Args.cons colRef2 Args.nil))

/-- A parse tree with one eligible table reference, used as the fixed
answer of a stub parser. -/
def selectDbTableTree : Expr :=
  Expr.node "select" (Args.cons (Expr.table plainDbTable) Args.nil)

/-- A stub external parser accepting everything with a fixed tree. -/
def parseAlwaysOk : String → Except String Expr :=
  fun _ => Except.ok selectDbTableTree

/-- A stub external parser rejecting exactly the string `bad sql`. -/
def parseRejectsBad : String → Except String Expr :=
  fun s =>
    if s = "bad sql" then Except.error "Invalid expression / Unexpected token"
    else Except.ok selectDbTableTree

/-- A stub external printer. -/
def renderStub : Expr → String := fun _ => "SQL"

/-- The test suite's convention: return the original catalog and name
texts and `new_<db>` for the database (a returned string replaces the
component, even when the text is the original one). -/
def renameAll : Handler :=
  fun c d n => (c, Option.map (fun s => "new_" ++ s) d, n)

/-- The quoted three-part reference of
``SELECT * FROM `catalog`.`db`.`table` ``. -/
def catQuotedTable : Table :=
  { catalog := some { name := "catalog", quoted := true },
    db := some { name := "db", quoted := true },
    this_ := some { name := "table", quoted := true },
    otherArgs := [] }

/-- Characterization of `_process_table` on an eligible node (database
and name both present): each component the handler answers with a
string becomes a fresh identifier with that text and the position's
original quoted flag, each component it answers with `None` is kept,
and the remaining args are copied. -/
theorem processTable_eligible (h : Handler) (catalog : Option Identifier)
    (dbI nameI : Identifier) (other : List (String × String)) :
    processTable h
        { catalog := catalog, db := some dbI, this_ := some nameI,
          otherArgs := other } =
      { catalog :=
          match (h (Option.map Identifier.name catalog) (some dbI.name)
              (some nameI.name)).1 with
          | some c =>
              some { name := c,
                     quoted := (Option.map Identifier.quoted catalog).getD false }
          | none => catalog,
        db :=
          match (h (Option.map Identifier.name catalog) (some dbI.name)
              (some nameI.name)).2.1 with
          | some d => some { name := d, quoted := dbI.quoted }
          | none => some dbI,
        this_ :=
          match (h (Option.map Identifier.name catalog) (some dbI.name)
              (some nameI.name)).2.2 with
          | some n => some { name := n, quoted := nameI.quoted }
          | none => some nameI,
        otherArgs := other } := by
  simp only [processTable, processTableM]
  generalize h (Option.map Identifier.name catalog) (some dbI.name)
    (some nameI.name) = res
  obtain ⟨nc, nd, nn⟩ := res
  cases nc <;> cases nd <;> cases nn <;> rfl

/-- On a node lacking the database or the name component,
`_process_table` returns the node unchanged without ever invoking the
handler, in every handler-effect monad. -/
theorem processTableM_skip (m : Type → Type) [Monad m]
    (handler : Option String → Option String → Option String → m Triple)
    (t : Table) (ht : t.db = none ∨ t.this_ = none) :
    processTableM m handler t = pure t := by
  obtain ⟨c, d, n, o⟩ := t
  cases d <;> cases n <;> simp_all [processTableM]

/-- A lifted pure handler never raises, so the raising view of
`_process_table` agrees with the pure one. -/
theorem processTableE_lift (h : Handler) (t : Table) :
    processTableE (liftHandler h) t = Except.ok (processTable h t) := by
  obtain ⟨c, d, n, o⟩ := t
  cases d <;> cases n <;> rfl

mutual

/-- If the table-processing step never raises, the raising traversal
agrees with the pure one and cannot raise either. -/
theorem transformExprE_ok (fE : Table → Except PyExc Table) (f : Table → Table)
    (hf : ∀ t, fE t = Except.ok (f t)) :
    ∀ e, transformExprE fE e = Except.ok (transformExpr f e)
  | Expr.ident i => rfl
  | Expr.table t => by
      rw [transformExprE, transformExpr, hf t]
      rfl
  | Expr.node k cs => by
      rw [transformExprE, transformExpr, transformArgsE_ok fE f hf cs]
      rfl

/-- `transformExprE_ok` on a child list. -/
theorem transformArgsE_ok (fE : Table → Except PyExc Table) (f : Table → Table)
    (hf : ∀ t, fE t = Except.ok (f t)) :
    ∀ cs, transformArgsE fE cs = Except.ok (transformArgs f cs)
  | Args.nil => rfl
  | Args.cons c cs => by
      rw [transformArgsE, transformArgs, transformExprE_ok fE f hf c,
        transformArgsE_ok fE f hf cs]
      rfl

end

mutual

/-- A table-processing step that fixes every table fixes every tree. -/
theorem transformExpr_fix (f : Table → Table) (hf : ∀ t, f t = t) :
    ∀ e, transformExpr f e = e
  | Expr.ident i => rfl
  | Expr.table t => by rw [transformExpr, hf t]
  | Expr.node k cs => by rw [transformExpr, transformArgs_fix f hf cs]

/-- `transformExpr_fix` on a child list. -/
theorem transformArgs_fix (f : Table → Table) (hf : ∀ t, f t = t) :
    ∀ cs, transformArgs f cs = cs
  | Args.nil => rfl
  | Args.cons c cs => by
      rw [transformArgs, transformExpr_fix f hf c, transformArgs_fix f hf cs]

end

mutual

/-- The traversal leaves any subtree containing no `Table` node
untouched, whatever the table-processing step does. -/
theorem transformExpr_noTable (f : Table → Table) :
    ∀ e, hasTable e = false → transformExpr f e = e
  | Expr.ident _, _ => rfl
  | Expr.table _, hx => by simp [hasTable] at hx
  | Expr.node k cs, hx => by
      rw [transformExpr, transformArgs_noTable f cs (by simpa [hasTable] using hx)]

/-- `transformExpr_noTable` on a child list. -/
theorem transformArgs_noTable (f : Table → Table) :
    ∀ cs, hasTableArgs cs = false → transformArgs f cs = cs
  | Args.nil, _ => rfl
  | Args.cons c cs, hx => by
      have hc : hasTable c = false := by
        have := hx
        simp [hasTableArgs] at this
        exact this.1
      have hcs : hasTableArgs cs = false := by
        have := hx
        simp [hasTableArgs] at this
        exact this.2
      rw [transformArgs, transformExpr_noTable f c hc, transformArgs_noTable f cs hcs]

end

/-- The identity policy leaves every table unchanged: with all three
answers `None`, `_process_table` copies the args verbatim. -/
theorem processTable_id (t : Table) : processTable idHandler t = t := by
  obtain ⟨c, d, n, o⟩ := t
  cases d <;> cases n <;> rfl

/-- Claim C1: on an eligible table-reference node (database and name
both present), each component the policy answers with a string is
replaced in the output node by a new identifier carrying the new text
and the ORIGINAL quoted flag of that component, while each component
the policy answers `None` for retains the original node's identifier
unchanged, including its original quoting. -/
theorem claim_c1_sticky_quoting (h : Handler) (catalog : Option Identifier)
    (dbI nameI : Identifier) (other : List (String × String))
    (nc nd nn : Option String)
    (hres : h (Option.map Identifier.name catalog) (some dbI.name)
      (some nameI.name) = (nc, nd, nn)) :
    (∀ cI c, catalog = some cI → nc = some c →
        (processTable h (Table.mk catalog (some dbI) (some nameI) other)).catalog
          = some (Identifier.mk c cI.quoted)) ∧
    (nc = none →
        (processTable h (Table.mk catalog (some dbI) (some nameI) other)).catalog
          = catalog) ∧
    (∀ d, nd = some d →
        (processTable h (Table.mk catalog (some dbI) (some nameI) other)).db
          = some (Identifier.mk d dbI.quoted)) ∧
    (nd = none →
        (processTable h (Table.mk catalog (some dbI) (some nameI) other)).db
          = some dbI) ∧
    (∀ n, nn = some n →
        (processTable h (Table.mk catalog (some dbI) (some nameI) other)).this_
          = some (Identifier.mk n nameI.quoted)) ∧
    (nn = none →
        (processTable h (Table.mk catalog (some dbI) (some nameI) other)).this_
          = some nameI) := by
  have he := processTable_eligible h catalog dbI nameI other
  rw [hres] at he
  refine ⟨?_, ?_, ?_, ?_, ?_, ?_⟩
  · intro cI c hcI hc
    subst hcI
    subst hc
    simp [he]
  · intro hc
    subst hc
    simp [he]
  · intro d hd
    subst hd
    simp [he]
  · intro hd
    subst hd
    simp [he]
  · intro n hn
    subst hn
    simp [he]
  · intro hn
    subst hn
    simp [he]

/-- Claim C1 witness: the quoted three-part table with the
catalog-and-name-echoing policy, and the quoted two-part table with
the database-renaming policy (the spec's backtick example). -/
theorem claim_c1_sticky_quoting_witness :
    (processTable renameAll catQuotedTable).catalog
        = some (Identifier.mk "catalog" true) ∧
    (processTable renameAll catQuotedTable).db
        = some (Identifier.mk "new_db" true) ∧
    (processTable renameAll catQuotedTable).this_
        = some (Identifier.mk "table" true) ∧
    (processTable renameDb quotedDbTable).catalog = none ∧
    (processTable renameDb quotedDbTable).db
        = some (Identifier.mk "new_db" true) ∧
    (processTable renameDb quotedDbTable).this_
        = some (Identifier.mk "table" true) := by
  have h1 := claim_c1_sticky_quoting renameAll
    (some (Identifier.mk "catalog" true)) (Identifier.mk "db" true)
    (Identifier.mk "table" true) [] (some "catalog") (some "new_db")
    (some "table") rfl
  have h2 := claim_c1_sticky_quoting renameDb none (Identifier.mk "db" true)
    (Identifier.mk "table" true) [] none (some "new_db") none rfl
  exact ⟨h1.1 (Identifier.mk "catalog" true) "catalog" rfl rfl,
    h1.2.2.1 "new_db" rfl, h1.2.2.2.2.1 "table" rfl,
    h2.2.1 rfl, h2.2.2.1 "new_db" rfl, h2.2.2.2.2.2 rfl⟩

/-- Claim C2: a table-reference node lacking a database component or a
name component is returned unchanged and the policy is never invoked
for it (even a policy that raises on every invocation leaves the call
successful); this covers CTEs referenced as bare names. -/
theorem claim_c2_ineligible_skipped (t : Table)
    (ht : t.db = none ∨ t.this_ = none) :
    (∀ h : RHandler, processTableE h t = Except.ok t) ∧
    (∀ h : Handler, processTable h t = t) := by
  constructor
  · intro h
    exact processTableM_skip (Except PyExc) h t ht
  · intro h
    exact processTableM_skip Id (fun c d n => pure (h c d n)) t ht

/-- Claim C2 witness: the bare `cte` reference is untouched both by a
policy that raises on every invocation and by the database-renaming
policy (which would rename a database literally named `cte`). -/
theorem claim_c2_ineligible_skipped_witness :
    processTableE raisingOtherHandler cteRefTable = Except.ok cteRefTable ∧
    processTable renameDb cteRefTable = cteRefTable := by
  have hc := claim_c2_ineligible_skipped cteRefTable (Or.inl rfl)
  exact ⟨hc.1 raisingOtherHandler, hc.2 renameDb⟩

/-- Claim C3: on an eligible node with no catalog component, a policy
answering a catalog string makes the output node gain a catalog
identifier that is unquoted (`quoted := false`), growing a two-part
identifier to three parts without inheriting quoting from a sibling. -/
theorem claim_c3_catalog_growth (h : Handler) (dbI nameI : Identifier)
    (other : List (String × String)) (c : String) (nd nn : Option String)
    (hres : h none (some dbI.name) (some nameI.name) = (some c, nd, nn)) :
    (processTable h (Table.mk none (some dbI) (some nameI) other)).catalog
      = some (Identifier.mk c false) := by
  have he := processTable_eligible h none dbI nameI other
  simp only [Option.map_none'] at he
  rw [hres] at he
  simp [he]

/-- Claim C3 witness: adding `new_catalog` to the quoted two-part
table `` `db`.`table` `` yields an unquoted catalog component. -/
theorem claim_c3_catalog_growth_witness :
    (processTable addCatalog quotedDbTable).catalog
      = some (Identifier.mk "new_catalog" false) :=
  claim_c3_catalog_growth addCatalog (Identifier.mk "db" true)
    (Identifier.mk "table" true) [] "new_catalog" none none rfl

/-- Claim C4: when the external parser rejects the input, `replace`
raises a `ValueError` wrapping the parser's diagnostic message and
returns no output; when the parser accepts it, no parse failure is
raised and the rendered transformed tree is returned. -/
theorem claim_c4_parse_failure (parse : String → Except String Expr)
    (render : Expr → String) (h : Handler) (sql : String) :
    (∀ msg, parse sql = Except.error msg →
        replacePure parse render h sql =
          Except.error (PyExc.valueError ("Failed to parse SQL: " ++ msg))) ∧
    (∀ e, parse sql = Except.ok e →
        replacePure parse render h sql =
          Except.ok (render (transformExpr (processTable h) e))) := by
  constructor
  · intro msg hp
    simp [replacePure, replaceE, hp]
  · intro e hp
    have ht := transformExprE_ok (processTableE (liftHandler h))
      (processTable h) (processTableE_lift h) e
    simp [replacePure, replaceE, hp, ht, Except.map]

/-- Claim C4 witness: a stub parser that rejects `bad sql` with a
diagnostic and accepts everything else. -/
theorem claim_c4_parse_failure_witness :
    replacePure parseRejectsBad renderStub renameDb "bad sql" =
      Except.error (PyExc.valueError
        "Failed to parse SQL: Invalid expression / Unexpected token") ∧
    replacePure parseRejectsBad renderStub renameDb "SELECT * FROM db.table" =
      Except.ok "SQL" := by
  have h1 := claim_c4_parse_failure parseRejectsBad renderStub renameDb "bad sql"
  have h2 := claim_c4_parse_failure parseRejectsBad renderStub renameDb
    "SELECT * FROM db.table"
  exact ⟨h1.1 "Invalid expression / Unexpected token" rfl,
    h2.2 selectDbTableTree rfl⟩

/-- Claim C5 counterexample: the claim quantifies over every raising
policy, but a policy that raises sqlglot's `ParseError` on an eligible
node is caught by the except-clause of `replace` and re-raised as a
different exception, a `ValueError` wrapping its message — it does not
propagate unmodified. -/
theorem claim_c5_counterexample :
    replaceE parseAlwaysOk renderStub raisingParseErrHandler
        "SELECT * FROM db.table" =
      Except.error (PyExc.valueError "Failed to parse SQL: boom") ∧
    PyExc.valueError "Failed to parse SQL: boom" ≠ PyExc.parseError "boom" := by
  exact ⟨rfl, by decide⟩

/-- Claim C5 (amended): an exception raised by the policy while the
tree is being transformed propagates to the caller unmodified,
provided it is not of sqlglot's `ParseError` type; a `ParseError`
raised by the policy is caught by the except-clause and re-raised as a
`ValueError` wrapping its message. -/
theorem claim_c5_policy_errors (parse : String → Except String Expr)
    (render : Expr → String) (h : RHandler) (sql : String) (expr : Expr)
    (e : PyExc) (hp : parse sql = Except.ok expr)
    (ht : transformExprE (processTableE h) expr = Except.error e)
    (hne : ∀ m, e ≠ PyExc.parseError m) :
    replaceE parse render h sql = Except.error e := by
  simp only [replaceE, hp, ht, Except.map]
  cases e with
  | parseError m => exact absurd rfl (hne m)
  | valueError _ => rfl
  | other _ => rfl

/-- Claim C5 witness: a policy raising an exception that is not a
`ParseError` (here an arbitrary handler failure) reaches the caller
unchanged. -/
theorem claim_c5_policy_errors_witness :
    replaceE parseAlwaysOk renderStub raisingOtherHandler
        "SELECT * FROM db.table" =
      Except.error (PyExc.other "handler failed") :=
  claim_c5_policy_errors parseAlwaysOk renderStub raisingOtherHandler
    "SELECT * FROM db.table" selectDbTableTree (PyExc.other "handler failed")
    rfl rfl (fun m hcon => PyExc.noConfusion hcon)

/-- Claim C6: on an eligible table-reference node the policy is
invoked exactly once (the call log gains exactly one entry), receiving
the node's catalog, database and name texts as three optional strings:
an absent catalog is passed as `None` (never the empty string), and
the database and name arguments are the node's present text values. -/
theorem claim_c6_called_once (h : Handler) (catalog : Option Identifier)
    (dbI nameI : Identifier) (other : List (String × String)) :
    processTableS h (Table.mk catalog (some dbI) (some nameI) other) [] =
      (processTable h (Table.mk catalog (some dbI) (some nameI) other),
        [(Option.map Identifier.name catalog, some dbI.name, some nameI.name)]) :=
  rfl

/-- Claim C6 witness: on `db.table` (no catalog) the policy is called
once with `(none, some "db", some "table")`; on the quoted three-part
table it is called once with all three texts. -/
theorem claim_c6_called_once_witness :
    (processTableS renameDb plainDbTable []).2
        = [(none, some "db", some "table")] ∧
    (processTableS renameAll catQuotedTable []).2
        = [(some "catalog", some "db", some "table")] := by
  have h1 := claim_c6_called_once renameDb none (Identifier.mk "db" false)
    (Identifier.mk "table" false) [("alias", "t")]
  have h2 := claim_c6_called_once renameAll (some (Identifier.mk "catalog" true))
    (Identifier.mk "db" true) (Identifier.mk "table" true) []
  exact ⟨congrArg Prod.snd h1, congrArg Prod.snd h2⟩

/-- Claim C7: `_process_table` rebuilds the node from a copy of its
args, so every attribute other than the three identifier slots (alias,
hints, sampling clause, ...) is carried over verbatim; the rewrite is
a pure reconstruction, the input node value is left intact. -/
theorem claim_c7_frame (h : Handler) (t : Table) :
    (processTable h t).otherArgs = t.otherArgs := by
  obtain ⟨c, d, n, o⟩ := t
  cases d with
  | none =>
    exact congrArg Table.otherArgs
      (processTableM_skip Id (fun c d n => pure (h c d n))
        (Table.mk c none n o) (Or.inl rfl))
  | some dbI =>
    cases n with
    | none =>
      exact congrArg Table.otherArgs
        (processTableM_skip Id (fun c d n => pure (h c d n))
          (Table.mk c (some dbI) none o) (Or.inr rfl))
    | some nameI =>
      rw [processTable_eligible h c dbI nameI o]

/-- Claim C8: under the identity policy (all three components reported
unchanged) the transformed tree is the parsed tree itself, so
`replace` returns exactly the renderer's output on the parse result
(only formatting normalization separates it from the raw input). -/
theorem claim_c8_identity_policy (parse : String → Except String Expr)
    (render : Expr → String) (sql : String) :
    (∀ e : Expr, transformExpr (processTable idHandler) e = e) ∧
    (∀ expr, parse sql = Except.ok expr →
        replacePure parse render idHandler sql = Except.ok (render expr)) := by
  have hfix : ∀ e, transformExpr (processTable idHandler) e = e :=
    transformExpr_fix (processTable idHandler) processTable_id
  refine ⟨hfix, ?_⟩
  intro expr hp
  have ht := transformExprE_ok (processTableE (liftHandler idHandler))
    (processTable idHandler) (processTableE_lift idHandler) expr
  simp [replacePure, replaceE, hp, ht, hfix expr, Except.map]

/-- Claim C8 witness: the identity policy on the parsed
`SELECT * FROM db.table` tree returns it unchanged. -/
theorem claim_c8_identity_policy_witness :
    transformExpr (processTable idHandler) selectDbTableTree
        = selectDbTableTree ∧
    replacePure parseAlwaysOk renderStub idHandler "SELECT * FROM db.table"
        = Except.ok "SQL" := by
  have hc := claim_c8_identity_policy parseAlwaysOk renderStub
    "SELECT * FROM db.table"
  exact ⟨hc.1 selectDbTableTree, hc.2 selectDbTableTree rfl⟩

/-- Claim C9: on a join-like node holding two table references and an
ON clause free of `Table` nodes (column-qualifier references are
Column nodes over identifier leaves), the traversal rewrites the two
table references independently through `_process_table` and leaves the
ON clause untouched — substitution happens only at table-reference
nodes, not at textual occurrences of the old names. -/
theorem claim_c9_join_independence (h : Handler) (t1 t2 : Table)
    (onc : Expr) (k : String) (hfree : hasTable onc = false) :
    transformExpr (processTable h)
        (Expr.node k (Args.cons (Expr.table t1)
          (Args.cons (Expr.table t2) (Args.cons onc Args.nil)))) =
      Expr.node k (Args.cons (Expr.table (processTable h t1))
        (Args.cons (Expr.table (processTable h t2))
          (Args.cons onc Args.nil))) := by
  rw [transformExpr, transformArgs, transformArgs, transformArgs, transformArgs,
    transformExpr, transformExpr, transformExpr_noTable (processTable h) onc hfree]

/-- Claim C9 witness: `SELECT * FROM db1.t1 JOIN db2.t2 ON db1.t1.id =
db2.t2.id` with the database-renaming policy: both tables gain the
`new_` prefix, the ON clause stays byte-for-byte identical. -/
theorem claim_c9_join_independence_witness :
    transformExpr (processTable renameDb)
        (Expr.node "join" (Args.cons (Expr.table joinTbl1)
          (Args.cons (Expr.table joinTbl2) (Args.cons onClause Args.nil)))) =
      Expr.node "join"
        (Args.cons (Expr.table (Table.mk none
          (some (Identifier.mk "new_db1" false))
          (some (Identifier.mk "t1" false)) []))
          (Args.cons (Expr.table (Table.mk none
            (some (Identifier.mk "new_db2" false))
            (some (Identifier.mk "t2" false)) []))
            (Args.cons onClause Args.nil))) :=
  claim_c9_join_independence renameDb joinTbl1 joinTbl2 onClause "join" rfl

/-- Claim C10: a policy answering the empty string for the database
component of an eligible node replaces that component with an
identifier whose text is the empty string (original quoted flag kept);
the empty string is not read as "leave unchanged" — only `None` is. -/
theorem claim_c10_empty_string (h : Handler) (catalog : Option Identifier)
    (nm : String) (q : Bool) (nameI : Identifier)
    (other : List (String × String)) (nc nn : Option String)
    (hres : h (Option.map Identifier.name catalog) (some nm)
      (some nameI.name) = (nc, some "", nn)) :
    (processTable h (Table.mk catalog (some (Identifier.mk nm q))
        (some nameI) other)).db = some (Identifier.mk "" q) ∧
    (nm ≠ "" →
      (processTable h (Table.mk catalog (some (Identifier.mk nm q))
          (some nameI) other)).db ≠ some (Identifier.mk nm q)) := by
  have he := processTable_eligible h catalog (Identifier.mk nm q) nameI other
  rw [hres] at he
  constructor
  · simp [he]
  · intro hne hcon
    rw [he] at hcon
    simp only [Option.some.injEq, Identifier.mk.injEq] at hcon
    exact hne hcon.1.symm

/-- Claim C10 witness: the empty-string policy on the quoted
`` `db`.`table` `` reference yields a (quoted) empty database
identifier, different from the original component. -/
theorem claim_c10_empty_string_witness :
    (processTable emptyDb quotedDbTable).db = some (Identifier.mk "" true) ∧
    (processTable emptyDb quotedDbTable).db ≠ some (Identifier.mk "db" true) := by
  have hc := claim_c10_empty_string emptyDb none "db" true
    (Identifier.mk "table" true) [] none none rfl
  exact ⟨hc.1, hc.2 (by decide)⟩
